import Mathlib

/-!
Verification model of the StarButtonBox host (Python UDP command server).

The definitions below are a shallow embedding of the repository's source
files:

* `src/server.py` — the UDP dispatch loop (`main`) together with its three
  inlined input-execution functions;
* `src/input_simulator.py` — the threaded variants of the execution
  functions plus `process_macro_in_thread`;
* `src/auto_drag_handler.py` — the capture / start / stop drag-loop module;
* `src/config.py` — configuration constants.

JSON values produced by Python's `json.loads` are modelled by `JValue`
(numbers as integers: only sign and zero-ness of numbers are ever inspected
by the code).  Python exceptions that the source catches locally become
explicit branches; an exception that escapes a function is the `Bool`
component of its result.  Calls into the OS input libraries
(`pydirectinput`, `pyautogui`) may fail; that nondeterminism is an oracle
`Os : OsCall → Bool` saying which calls raise.  The observable behaviour of
processing a datagram is a `List Event` trace: OS input calls, log lines
(abstracted to tags), UDP replies, and the start of an executor invocation.
-/

namespace StarButtonBox

/-- A decoded JSON document, as returned by Python's `json.loads`.
Numbers are modelled as integers (the source only compares them to zero). -/
inductive JValue
  | null
  | bool (b : Bool)
  | num (n : Int)
  | str (s : String)
  | arr (xs : List JValue)
  | obj (fields : List (String × JValue))

/-- Python `dict.get(key)`: first binding of `key` in the field list. -/
def jget : List (String × JValue) → String → Option JValue
  | [], _ => none
  | (k, v) :: rest, key => if k = key then some v else jget rest key

/-- Python truthiness of a JSON value (`if x:`). -/
def truthy : JValue → Bool
  | .null => false
  | .bool b => b
  | .num n => n != 0
  | .str s => s != ""
  | .arr xs => !xs.isEmpty
  | .obj fs => !fs.isEmpty

/-- Truthiness of an optional value; a missing key is falsy. -/
def truthyOpt : Option JValue → Bool
  | none => false
  | some v => truthy v

/-- Python `x is not None` collapsed into the `Option`: a field bound to
JSON `null` behaves exactly like a missing field. -/
def pyNone : Option JValue → Option JValue
  | some .null => none
  | x => x

/-- Python numeric coercion used by `duration_ms / 1000.0`: ints/floats are
numbers, `bool` is numeric (`True = 1`, `False = 0`), everything else
raises `TypeError` (`none`). -/
def asNum : JValue → Option Int
  | .num n => some n
  | .bool b => some (if b then 1 else 0)
  | _ => none

/-- Python `v == "lit"` where `v` is an optional JSON value: true only for
an equal string. -/
def jIsStr : Option JValue → String → Bool
  | some (.str s), t => s == t
  | _, _ => false

/-- Python `for x in v`: lists iterate their items, strings their
characters, dicts their keys; other values raise `TypeError`. -/
def pyIter : JValue → Except Unit (List JValue)
  | .arr xs => .ok xs
  | .str s => .ok (s.toList.map fun c => JValue.str (String.mk [c]))
  | .obj fs => .ok (fs.map fun f => JValue.str f.1)
  | _ => .error ()

/-- Python unary minus on a JSON value (`-clicks`); non-numeric operands
raise `TypeError`. -/
def pyNeg : JValue → Except Unit JValue
  | .num n => .ok (.num (-n))
  | .bool b => .ok (.num (if b then -1 else 0))
  | _ => .error ()

/-- Python `v == 0` for a JSON value (`scroll_amount == 0`). -/
def pyEqZero : JValue → Bool
  | .num n => n == 0
  | .bool b => !b
  | _ => false

/-- An OS input-API call attempted by the code (`pydirectinput`). -/
inductive OsCall
  | keyDown (k : JValue)
  | keyUp (k : JValue)
  | press (k : JValue)
  | click (b : String)
  | mouseDown (b : String)
  | mouseUp (b : String)
  | scroll (amount : JValue)
  | sleep (ms : Int)

/-- Oracle describing which OS input calls raise an exception. -/
abbrev Os := OsCall → Bool

/-- The oracle under which every OS input call succeeds. -/
def osOk : Os := fun _ => false

/-- Tags abstracting the `print` log lines of the source. -/
inductive LogMsg
  | errInvalidJson | errUnicode | errLoopGeneric
  | recvPing | sentPong | warnPingNoId
  | recvCmd | warnNoPayload | ackAnyway | sentAck | sentAckAnyway
  | errDecodePayload | errProcPayload | warnUnknownSubtype | warnUnknownType
  | errKeyMissing | warnModDown | warnModUp | holdingMod | releasingMod
  | simTap | simHold | warnBadHoldDuration | warnBadPressType | errKeyAction
  | errBadButton | simClick | simMouseHold | errMouseAction
  | errBadDirection | simScroll | errScrollAction
  | latency | threadStart | threadFinish | errThreadDecode | errThreadSim
  | warnUnknownSubtypeThread
  deriving DecidableEq

/-- A UDP reply sent with `server_socket.sendto` (PONG or ACK packets;
their `payload` field is always `null`). -/
structure SentPacket where
  ptype : String
  packetId : JValue
  timestamp : Int
  payload : JValue

/-- One observable event of processing a datagram. -/
inductive Event
  | os (c : OsCall)
  | log (m : LogMsg)
  | send (p : SentPacket)
  | execStart (sub : String)

/-- The OS input calls of a trace, in order. -/
def osCalls (tr : List Event) : List OsCall :=
  tr.filterMap fun e => match e with | .os c => some c | _ => none

/-- The UDP replies of a trace, in order. -/
def sends (tr : List Event) : List SentPacket :=
  tr.filterMap fun e => match e with | .send p => some p | _ => none

/-- Recognises executor-invocation-start events. -/
def isExecStartE : Event → Bool
  | .execStart _ => true
  | _ => false

/-- Recognises reply-send events. -/
def isSendE : Event → Bool
  | .send _ => true
  | _ => false

@[simp] theorem osCalls_append (a b : List Event) :
    osCalls (a ++ b) = osCalls a ++ osCalls b :=
  List.filterMap_append a b _

@[simp] theorem sends_append (a b : List Event) :
    sends (a ++ b) = sends a ++ sends b :=
  List.filterMap_append a b _

@[simp] theorem osCalls_nil : osCalls [] = [] := rfl

@[simp] theorem osCalls_cons_os (c : OsCall) (tr : List Event) :
    osCalls (.os c :: tr) = c :: osCalls tr := rfl

@[simp] theorem osCalls_cons_log (m : LogMsg) (tr : List Event) :
    osCalls (.log m :: tr) = osCalls tr := rfl

@[simp] theorem osCalls_cons_send (p : SentPacket) (tr : List Event) :
    osCalls (.send p :: tr) = osCalls tr := rfl

@[simp] theorem osCalls_cons_execStart (s : String) (tr : List Event) :
    osCalls (.execStart s :: tr) = osCalls tr := rfl

@[simp] theorem sends_nil : sends [] = [] := rfl

@[simp] theorem sends_cons_os (c : OsCall) (tr : List Event) :
    sends (.os c :: tr) = sends tr := rfl

@[simp] theorem sends_cons_log (m : LogMsg) (tr : List Event) :
    sends (.log m :: tr) = sends tr := rfl

@[simp] theorem sends_cons_send (p : SentPacket) (tr : List Event) :
    sends (.send p :: tr) = p :: sends tr := rfl

@[simp] theorem sends_cons_execStart (s : String) (tr : List Event) :
    sends (.execStart s :: tr) = sends tr := rfl

/-! ## auto_drag_handler.py

State machine of the module-level state of `auto_drag_handler.py`:
`captured_src_position`, `captured_dest_position`, `stop_drag_loop_event`
and `auto_drag_thread`.  Threads are identified by numbers handed out by a
counter; `live` is the set of drag-loop threads currently alive (the
module only ever references the most recent one through `tracked`, but a
thread whose `join` timed out stays alive after the reference is dropped).
The `joinExits` argument of `stop`/`start` is the scheduling oracle for
`auto_drag_thread.join(timeout=2.0)`: `true` means the thread observed the
stop event and terminated within the timeout, `false` means the join timed
out (the source then logs a warning and continues). -/

/-- A captured screen coordinate (`pyautogui.position()`). -/
structure Point where
  x : Int
  y : Int
  deriving DecidableEq

/-- Module-level mutable state of `auto_drag_handler.py`. -/
structure DragState where
  src : Option Point
  dest : Option Point
  eventSet : Bool
  tracked : Option Nat
  live : List Nat
  nextId : Nat
  deriving DecidableEq

/-- State at process start: both endpoints unset, event clear, no thread. -/
def dragInit : DragState := ⟨none, none, false, none, [], 0⟩

namespace AutoDrag

/-- Embeds `capture_mouse_position(purpose)`: stores the current pointer
position (`pos`, the successful result of `pyautogui.position()`) into the
slot selected by `purpose`; any other purpose only logs an error. -/
def capture_mouse_position (purpose : String) (pos : Point) (s : DragState) :
    DragState :=
  if purpose = "SRC" then { s with src := some pos }
  else if purpose = "DES" then { s with dest := some pos }
  else s

/-- Embeds `stop_auto_drag_loop()`: if the tracked thread is alive, set the
stop event and join it with a 2s timeout.  On a successful join the thread
is gone; on a timeout it stays alive.  Either way the module drops its
reference (`auto_drag_thread = None`). -/
def stop_auto_drag_loop (joinExits : Bool) (s : DragState) : DragState :=
  match s.tracked with
  | some t =>
      if t ∈ s.live then
        if joinExits then
          { s with eventSet := true, live := s.live.erase t, tracked := none }
        else
          { s with eventSet := true, tracked := none }
      else s
  | none => s

/-- Embeds `start_auto_drag_loop()`: no-op unless both endpoints are set;
stops a still-alive tracked thread first, then clears the stop event and
launches (and tracks) a fresh thread. -/
def start_auto_drag_loop (joinExits : Bool) (s : DragState) : DragState :=
  if s.src = none ∨ s.dest = none then s
  else
    let s1 :=
      match s.tracked with
      | some t => if t ∈ s.live then stop_auto_drag_loop joinExits s else s
      | none => s
    { s1 with eventSet := false, tracked := some s1.nextId,
              live := s1.nextId :: s1.live, nextId := s1.nextId + 1 }

/-- One cancellation check of `_auto_drag_loop_task` run by thread `t`:
the loop exits exactly when it observes `stop_drag_loop_event` set
(otherwise it performs another drag cycle and stays alive).  The task never
writes the captured positions. -/
def task_observe_stop (t : Nat) (s : DragState) : DragState :=
  if s.eventSet ∧ t ∈ s.live then { s with live := s.live.erase t } else s

/-- The operations that touch the module state. -/
inductive DragOp
  | capture (purpose : String) (pos : Point)
  | start (joinExits : Bool)
  | stop (joinExits : Bool)
  | taskCheck (t : Nat)
  deriving DecidableEq

/-- Applies one operation to the module state. -/
def applyOp : DragOp → DragState → DragState
  | .capture p pos, s => capture_mouse_position p pos s
  | .start j, s => start_auto_drag_loop j s
  | .stop j, s => stop_auto_drag_loop j s
  | .taskCheck t, s => task_observe_stop t s

/-- Applies a whole sequence of operations starting from `s`. -/
def applyOps (ops : List DragOp) (s : DragState) : DragState :=
  ops.foldl (fun st op => applyOp op st) s

/-- Holds when every `join(timeout=2.0)` performed by the operation
observes the thread exit within the timeout. -/
def DragOp.syncStops : DragOp → Prop
  | .start j => j = true
  | .stop j => j = true
  | _ => True

/-- The single-instance invariant: either no drag thread is alive, or
exactly the tracked one is. -/
def TrackedInv (s : DragState) : Prop :=
  s.live = [] ∨ ∃ t, s.live = [t] ∧ s.tracked = some t

end AutoDrag

/-! ## config.py and the receive buffer of server.py -/

namespace Config

/-- `config.py` line 8: `BUFFER_SIZE = 2048`. -/
def BUFFER_SIZE : Nat := 2048

end Config

namespace Server

/-- `server.py` line 13: the module-level `BUFFER_SIZE = 1024` actually
used by `main`'s `recvfrom` (`server.py` does not import `config.py`). -/
def BUFFER_SIZE : Nat := 1024

/-- `server_socket.recvfrom(BUFFER_SIZE)` on a UDP socket delivers at most
`BUFFER_SIZE` bytes of the datagram; the excess is discarded. -/
def recvfrom (datagram : List Nat) : List Nat :=
  datagram.take BUFFER_SIZE

end Server

/-! ## Shared pieces of the input-execution functions

`server.py` lines 27–170 and `input_simulator.py` lines 21–174 contain the
same three execution functions; the `input_simulator.py` variants only add
a latency log line inside the `try` block and drop the success prints of
the modifier loops.  The branch structure of each `try` block is identical
in both files and is factored out below. -/

/-- Log event emitted when an OS call raises (`except` arm of the inner
`try` around the primary action). -/
def errIf (os : Os) (c : OsCall) (m : LogMsg) : List Event :=
  if os c then [Event.log m] else []

/-- Modifier press-down loop of `execute_key_event` (both files) and of the
`input_simulator.py` mouse/scroll variants: each `keyDown` attempt is
wrapped in its own `try`, a failure only logs a warning. -/
def modDownsSilent (os : Os) : List JValue → List Event
  | [] => []
  | m :: rest =>
      (Event.os (.keyDown m) ::
        (if os (.keyDown m) then [Event.log .warnModDown] else [])) ++
      modDownsSilent os rest

/-- Modifier release loop (`for mod_key in reversed(modifiers)`), silent
variant; to be applied to the already-reversed modifier list. -/
def modUpsRevSilent (os : Os) : List JValue → List Event
  | [] => []
  | m :: rest =>
      (Event.os (.keyUp m) ::
        (if os (.keyUp m) then [Event.log .warnModUp] else [])) ++
      modUpsRevSilent os rest

/-- Modifier press-down loop of the `server.py` mouse/scroll variants,
which print `Holding modifier` after a successful `keyDown`. -/
def modDownsVerbose (os : Os) : List JValue → List Event
  | [] => []
  | m :: rest =>
      (Event.os (.keyDown m) ::
        (if os (.keyDown m) then [Event.log .warnModDown]
         else [Event.log .holdingMod])) ++
      modDownsVerbose os rest

/-- Modifier release loop of the `server.py` mouse/scroll variants
(`Releasing modifier` print); applied to the reversed modifier list. -/
def modUpsRevVerbose (os : Os) : List JValue → List Event
  | [] => []
  | m :: rest =>
      (Event.os (.keyUp m) ::
        (if os (.keyUp m) then [Event.log .warnModUp]
         else [Event.log .releasingMod])) ++
      modUpsRevVerbose os rest

/-- Body of the `try` block of `execute_key_event` (identical branch
structure in `server.py` lines 46–69 and `input_simulator.py` lines
41–68): tap presses the key; hold with a present, numeric, positive
duration does down/sleep/up; hold with a non-positive numeric duration
logs and taps; hold with a present non-numeric duration raises `TypeError`
at `duration_ms / 1000.0`, caught by the `except` arm (no key action at
all); anything else logs and taps.  Exceptions of the OS calls are caught
by the same `except` arm. -/
def keyPrimary (os : Os) (key : JValue) (pressType : JValue)
    (durationMs : Option JValue) : List Event :=
  if jIsStr (some pressType) "tap" then
    .log .simTap :: .os (.press key) :: errIf os (.press key) .errKeyAction
  else if jIsStr (some pressType) "hold" && durationMs.isSome then
    match asNum (durationMs.getD .null) with
    | some n =>
        if n ≤ 0 then
          .log .warnBadHoldDuration :: .os (.press key) ::
            errIf os (.press key) .errKeyAction
        else
          .log .simHold :: .os (.keyDown key) ::
            (if os (.keyDown key) then [Event.log .errKeyAction]
             else .os (.sleep n) :: .os (.keyUp key) ::
               errIf os (.keyUp key) .errKeyAction)
    | none => [Event.log .errKeyAction]
  else
    .log .warnBadPressType :: .os (.press key) ::
      errIf os (.press key) .errKeyAction

/-- Body of the `try` block of `execute_mouse_event` (`server.py` lines
101–124, `input_simulator.py` lines 100–127), same shape as `keyPrimary`
with click / mouseDown / mouseUp on the mapped button name. -/
def mousePrimary (os : Os) (b : String) (pressType : JValue)
    (durationMs : Option JValue) : List Event :=
  if jIsStr (some pressType) "tap" then
    .log .simClick :: .os (.click b) :: errIf os (.click b) .errMouseAction
  else if jIsStr (some pressType) "hold" && durationMs.isSome then
    match asNum (durationMs.getD .null) with
    | some n =>
        if n ≤ 0 then
          .log .warnBadHoldDuration :: .os (.click b) ::
            errIf os (.click b) .errMouseAction
        else
          .log .simMouseHold :: .os (.mouseDown b) ::
            (if os (.mouseDown b) then [Event.log .errMouseAction]
             else .os (.sleep n) :: .os (.mouseUp b) ::
               errIf os (.mouseUp b) .errMouseAction)
    | none => [Event.log .errMouseAction]
  else
    .log .warnBadPressType :: .os (.click b) ::
      errIf os (.click b) .errMouseAction

/-- `button_map.get(button_str)`: the three known names map to the
`pydirectinput` button strings; other hashable values (strings, numbers,
booleans, `None`) give `None`; unhashable values (lists, dicts) raise
`TypeError` before the `if not button` check. -/
def buttonMap : Option JValue → Except Unit (Option String)
  | some (.str "LEFT") => .ok (some "left")
  | some (.str "RIGHT") => .ok (some "right")
  | some (.str "MIDDLE") => .ok (some "middle")
  | some (.arr _) => .error ()
  | some (.obj _) => .error ()
  | _ => .ok none

/-- `clicks if direction == "UP" else -clicks if direction == "DOWN" else 0`
(`execute_mouse_scroll`): the negation of a non-numeric `clicks` raises
`TypeError` outside any `try`. -/
def pyScrollAmount (direction : Option JValue) (clicks : JValue) :
    Except Unit JValue :=
  if jIsStr direction "UP" then .ok clicks
  else if jIsStr direction "DOWN" then pyNeg clicks
  else .ok (.num 0)

/-! ## server.py lines 27–170: the inlined execution functions

Each function returns its event trace together with a flag marking a
Python exception that escapes the function (an `AttributeError` from
`.get` on a non-dict, a `TypeError` from iterating a non-iterable
`modifiers` or hashing an unhashable button, or negating a non-numeric
`clicks`); everything raised inside a `try` is handled locally. -/

namespace Server

/-- Embeds `server.py execute_key_event(data)`. -/
def execute_key_event (os : Os) (data : JValue) : List Event × Bool :=
  match data with
  | .obj fs =>
      match (jget fs "pressType").getD (.obj []) with
      | .obj pfs =>
          let pressType := (jget pfs "type").getD (.str "tap")
          let durationMs := pyNone (jget pfs "durationMs")
          if truthyOpt (jget fs "key") = false then
            ([.log .errKeyMissing], false)
          else
            let key := (jget fs "key").getD .null
            match pyIter ((jget fs "modifiers").getD (.arr [])) with
            | .error _ => ([], true)
            | .ok mods =>
                (modDownsSilent os mods ++
                  keyPrimary os key pressType durationMs ++
                  modUpsRevSilent os mods.reverse, false)
      | _ => ([], true)
  | _ => ([], true)

/-- Embeds `server.py execute_mouse_event(data)`. -/
def execute_mouse_event (os : Os) (data : JValue) : List Event × Bool :=
  match data with
  | .obj fs =>
      match (jget fs "pressType").getD (.obj []) with
      | .obj pfs =>
          let pressType := (jget pfs "type").getD (.str "tap")
          let durationMs := pyNone (jget pfs "durationMs")
          match buttonMap (jget fs "button") with
          | .error _ => ([], true)
          | .ok none => ([.log .errBadButton], false)
          | .ok (some b) =>
              match pyIter ((jget fs "modifiers").getD (.arr [])) with
              | .error _ => ([], true)
              | .ok mods =>
                  (modDownsVerbose os mods ++
                    mousePrimary os b pressType durationMs ++
                    modUpsRevVerbose os mods.reverse, false)
      | _ => ([], true)
  | _ => ([], true)

/-- Embeds `server.py execute_mouse_scroll(data)`. -/
def execute_mouse_scroll (os : Os) (data : JValue) : List Event × Bool :=
  match data with
  | .obj fs =>
      match pyScrollAmount (jget fs "direction")
          ((jget fs "clicks").getD (.num 1)) with
      | .error _ => ([], true)
      | .ok amt =>
          if pyEqZero amt then ([.log .errBadDirection], false)
          else
            match pyIter ((jget fs "modifiers").getD (.arr [])) with
            | .error _ => ([], true)
            | .ok mods =>
                (modDownsVerbose os mods ++
                  (.log .simScroll :: .os (.scroll amt) ::
                    errIf os (.scroll amt) .errScrollAction) ++
                  modUpsRevVerbose os mods.reverse, false)
  | _ => ([], true)

end Server

/-! ## input_simulator.py: the threaded execution functions -/

namespace InputSim

/-- Embeds `input_simulator.py execute_key_event(data, ...)`: same as the
`server.py` variant but logs the server-side latency sample inside the
`try` block, immediately before the primary action. -/
def execute_key_event (os : Os) (data : JValue) : List Event × Bool :=
  match data with
  | .obj fs =>
      match (jget fs "pressType").getD (.obj []) with
      | .obj pfs =>
          let pressType := (jget pfs "type").getD (.str "tap")
          let durationMs := pyNone (jget pfs "durationMs")
          if truthyOpt (jget fs "key") = false then
            ([.log .errKeyMissing], false)
          else
            let key := (jget fs "key").getD .null
            match pyIter ((jget fs "modifiers").getD (.arr [])) with
            | .error _ => ([], true)
            | .ok mods =>
                (modDownsSilent os mods ++
                  (.log .latency :: keyPrimary os key pressType durationMs) ++
                  modUpsRevSilent os mods.reverse, false)
      | _ => ([], true)
  | _ => ([], true)

/-- Embeds `input_simulator.py execute_mouse_event(data, ...)` (silent
modifier loops, latency sample before the primary action). -/
def execute_mouse_event (os : Os) (data : JValue) : List Event × Bool :=
  match data with
  | .obj fs =>
      match (jget fs "pressType").getD (.obj []) with
      | .obj pfs =>
          let pressType := (jget pfs "type").getD (.str "tap")
          let durationMs := pyNone (jget pfs "durationMs")
          match buttonMap (jget fs "button") with
          | .error _ => ([], true)
          | .ok none => ([.log .errBadButton], false)
          | .ok (some b) =>
              match pyIter ((jget fs "modifiers").getD (.arr [])) with
              | .error _ => ([], true)
              | .ok mods =>
                  (modDownsSilent os mods ++
                    (.log .latency :: mousePrimary os b pressType durationMs) ++
                    modUpsRevSilent os mods.reverse, false)
      | _ => ([], true)
  | _ => ([], true)

/-- Embeds `input_simulator.py execute_mouse_scroll(data, ...)`. -/
def execute_mouse_scroll (os : Os) (data : JValue) : List Event × Bool :=
  match data with
  | .obj fs =>
      match pyScrollAmount (jget fs "direction")
          ((jget fs "clicks").getD (.num 1)) with
      | .error _ => ([], true)
      | .ok amt =>
          if pyEqZero amt then ([.log .errBadDirection], false)
          else
            match pyIter ((jget fs "modifiers").getD (.arr [])) with
            | .error _ => ([], true)
            | .ok mods =>
                (modDownsSilent os mods ++
                  (.log .latency :: .log .simScroll :: .os (.scroll amt) ::
                    errIf os (.scroll amt) .errScrollAction) ++
                  modUpsRevSilent os mods.reverse, false)
  | _ => ([], true)

/-- Embeds `input_simulator.py process_macro_in_thread(action_data_str,
...)`: decode the payload string, dispatch on the action subtype, and log
start/finish; decode errors and escaped exceptions are caught and logged
(`json.loads` is the oracle argument `loads`). -/
def process_macro_in_thread (loads : String → Option JValue) (os : Os)
    (action_data_str : String) : List Event :=
  match loads action_data_str with
  | none => [.log .errThreadDecode]
  | some a =>
      match a with
      | .obj afs =>
          let sub := jget afs "type"
          let r : List Event × Bool :=
            if jIsStr sub "key_event" then execute_key_event os a
            else if jIsStr sub "mouse_event" then execute_mouse_event os a
            else if jIsStr sub "mouse_scroll" then execute_mouse_scroll os a
            else ([.log .warnUnknownSubtypeThread], false)
          .log .threadStart :: r.1 ++
            (if r.2 then [Event.log .errThreadSim]
             else [Event.log .threadFinish])
      | _ => [.log .errThreadSim]

end InputSim

/-! ## server.py main: the UDP dispatch loop (lines 276–383)

`json.loads` is abstracted as an oracle `loads : String → Option JValue`
(`none` ≙ `json.JSONDecodeError`); `int(time.time() * 1000)` as the
parameter `now`; `sendto` is modelled as succeeding (a failed reply send
is caught, logged and swallowed by the source and changes nothing of what
the claims here observe). -/

namespace Server

/-- The PONG reply built at `server.py` lines 298–303. -/
def mkPong (pid : JValue) (now : Int) : SentPacket :=
  ⟨"HEALTH_CHECK_PONG", pid, now, .null⟩

/-- The ACK reply built at `server.py` lines 342–347 (and 363). -/
def mkAck (pid : JValue) (now : Int) : SentPacket :=
  ⟨"MACRO_ACK", pid, now, .null⟩

/-- One executor invocation at the dispatch site (`server.py` lines
324–329): the `execStart` marker, the executor's trace, and the error log
of the `except` arm (line 336) when an exception escaped the executor. -/
def execWrap (name : String) (r : List Event × Bool) : List Event :=
  .execStart name :: r.1 ++
    (if r.2 then [Event.log .errProcPayload] else [])

/-- Inner `try` of the MACRO_COMMAND branch (`server.py` lines 320–338):
decode the payload string, dispatch on the action subtype (emitting an
executor-invocation-start marker at the call), and catch decode errors,
`TypeError` from `json.loads` on a non-string payload, and any exception
escaping an execution function. -/
def cmdPayloadPart (loads : String → Option JValue) (os : Os)
    (payload : Option JValue) : List Event :=
  match payload with
  | some (.str s) =>
      match loads s with
      | some a =>
          match a with
          | .obj afs =>
              let sub := jget afs "type"
              if jIsStr sub "key_event" then
                execWrap "key_event" (execute_key_event os a)
              else if jIsStr sub "mouse_event" then
                execWrap "mouse_event" (execute_mouse_event os a)
              else if jIsStr sub "mouse_scroll" then
                execWrap "mouse_scroll" (execute_mouse_scroll os a)
              else [.log .warnUnknownSubtype]
          | _ => [.log .errProcPayload]
      | none => [.log .errDecodePayload]
  | _ => [.log .errProcPayload]

/-- The MACRO_COMMAND branch (`server.py` lines 315–371): with a truthy
payload the inner `try` runs and the `finally` block sends the ACK when a
truthy `packetId` is present; with a falsy payload only a warning is
logged and the trailing `if not ack_sent and packet_id` block sends the
ACK. -/
def cmdBranch (loads : String → Option JValue) (os : Os) (now : Int)
    (pid payload : Option JValue) : List Event :=
  .log .recvCmd ::
    (if truthyOpt payload then
      cmdPayloadPart loads os payload ++
        (if truthyOpt pid then
          [.send (mkAck (pid.getD .null) now), .log .sentAck]
         else [])
     else
      .log .warnNoPayload ::
        (if truthyOpt pid then
          [.log .ackAnyway, .send (mkAck (pid.getD .null) now),
           .log .sentAckAnyway]
         else []))

/-- Per-packet dispatch of `server.py main` (lines 290–375) on an
already-decoded JSON document: branch on `type`, handling PING, the macro
command, and unknown types; `.get` on a non-dict document raises an
`AttributeError` caught by the loop's generic `except` (line 380). -/
def handleDecoded (loads : String → Option JValue) (os : Os) (now : Int)
    (p : JValue) : List Event :=
  match p with
  | .obj fs =>
      let pid := jget fs "packetId"
      if jIsStr (jget fs "type") "HEALTH_CHECK_PING" then
        .log .recvPing ::
          (if truthyOpt pid then
            [.send (mkPong (pid.getD .null) now), .log .sentPong]
           else [.log .warnPingNoId])
      else if jIsStr (jget fs "type") "MACRO_COMMAND" then
        cmdBranch loads os now pid (jget fs "payload")
      else [.log .warnUnknownType]
  | _ => [.log .errLoopGeneric]

/-- One received datagram as seen after the two decode stages:
`bytes.decode('utf-8')` (whose failure is caught at line 377) and the
outer `json.loads` (whose failure is caught at lines 283–288). -/
inductive RawDatagram
  | badUtf8
  | badJson
  | packet (p : JValue)

/-- Processing of one datagram by the body of the `while True` loop. -/
def handleRaw (loads : String → Option JValue) (os : Os) (now : Int) :
    RawDatagram → List Event
  | .badUtf8 => [.log .errUnicode]
  | .badJson => [.log .errInvalidJson]
  | .packet p => handleDecoded loads os now p

/-- The receive loop over a finite inbound datagram sequence: every decode
or processing failure is caught inside the loop body, so the loop always
proceeds to the next datagram. -/
def serverLoop (loads : String → Option JValue) (os : Os) (now : Int) :
    List RawDatagram → List Event
  | [] => []
  | d :: rest => handleRaw loads os now d ++ serverLoop loads os now rest

end Server

/-! ## Trace lemmas -/

@[simp] theorem sends_errIf (os : Os) (c : OsCall) (m : LogMsg) :
    sends (errIf os c m) = [] := by
  unfold errIf; split <;> rfl

@[simp] theorem osCalls_errIf (os : Os) (c : OsCall) (m : LogMsg) :
    osCalls (errIf os c m) = [] := by
  unfold errIf; split <;> rfl

@[simp] theorem sends_modDownsSilent (os : Os) (l : List JValue) :
    sends (modDownsSilent os l) = [] := by
  induction l with
  | nil => rfl
  | cons m rest ih => by_cases h : os (.keyDown m) <;> simp [modDownsSilent, h, ih]

@[simp] theorem sends_modUpsRevSilent (os : Os) (l : List JValue) :
    sends (modUpsRevSilent os l) = [] := by
  induction l with
  | nil => rfl
  | cons m rest ih => by_cases h : os (.keyUp m) <;> simp [modUpsRevSilent, h, ih]

@[simp] theorem sends_modDownsVerbose (os : Os) (l : List JValue) :
    sends (modDownsVerbose os l) = [] := by
  induction l with
  | nil => rfl
  | cons m rest ih => by_cases h : os (.keyDown m) <;> simp [modDownsVerbose, h, ih]

@[simp] theorem sends_modUpsRevVerbose (os : Os) (l : List JValue) :
    sends (modUpsRevVerbose os l) = [] := by
  induction l with
  | nil => rfl
  | cons m rest ih => by_cases h : os (.keyUp m) <;> simp [modUpsRevVerbose, h, ih]

@[simp] theorem osCalls_modDownsSilent (os : Os) (l : List JValue) :
    osCalls (modDownsSilent os l) = l.map OsCall.keyDown := by
  induction l with
  | nil => rfl
  | cons m rest ih => by_cases h : os (.keyDown m) <;> simp [modDownsSilent, h, ih]

@[simp] theorem osCalls_modUpsRevSilent (os : Os) (l : List JValue) :
    osCalls (modUpsRevSilent os l) = l.map OsCall.keyUp := by
  induction l with
  | nil => rfl
  | cons m rest ih => by_cases h : os (.keyUp m) <;> simp [modUpsRevSilent, h, ih]

@[simp] theorem sends_keyPrimary (os : Os) (key pt : JValue)
    (d : Option JValue) : sends (keyPrimary os key pt d) = [] := by
  unfold keyPrimary
  (repeat' split) <;> simp

@[simp] theorem sends_mousePrimary (os : Os) (b : String) (pt : JValue)
    (d : Option JValue) : sends (mousePrimary os b pt d) = [] := by
  unfold mousePrimary
  (repeat' split) <;> simp

theorem sends_exec_key_server (os : Os) (d : JValue) :
    sends (Server.execute_key_event os d).1 = [] := by
  unfold Server.execute_key_event
  (repeat' split) <;> simp

theorem sends_exec_mouse_server (os : Os) (d : JValue) :
    sends (Server.execute_mouse_event os d).1 = [] := by
  unfold Server.execute_mouse_event
  (repeat' split) <;> simp

theorem sends_exec_scroll_server (os : Os) (d : JValue) :
    sends (Server.execute_mouse_scroll os d).1 = [] := by
  unfold Server.execute_mouse_scroll
  (repeat' split) <;> simp

@[simp] theorem sends_execWrap (name : String) (r : List Event × Bool) :
    sends (Server.execWrap name r) = sends r.1 := by
  unfold Server.execWrap
  split <;> simp

theorem sends_cmdPayloadPart (loads : String → Option JValue) (os : Os)
    (payload : Option JValue) :
    sends (Server.cmdPayloadPart loads os payload) = [] := by
  rcases payload with _ | v
  · rfl
  rcases v with _ | b | n | s | xs | fs
  · rfl
  · rfl
  · rfl
  · rcases h : loads s with _ | a
    · simp [Server.cmdPayloadPart, h]
    · rcases a with _ | b | n | t | xs | afs <;>
        simp only [Server.cmdPayloadPart, h] <;> try rfl
      by_cases h1 : jIsStr (jget afs "type") "key_event" = true
      · simp [h1, sends_exec_key_server]
      · by_cases h2 : jIsStr (jget afs "type") "mouse_event" = true
        · simp [h1, h2, sends_exec_mouse_server]
        · by_cases h3 : jIsStr (jget afs "type") "mouse_scroll" = true
          · simp [h1, h2, h3, sends_exec_scroll_server]
          · simp [h1, h2, h3]
  · rfl
  · rfl

/-! ## Drag-handler state lemmas -/

namespace AutoDrag

theorem stop_src (j : Bool) (s : DragState) :
    (stop_auto_drag_loop j s).src = s.src := by
  unfold stop_auto_drag_loop
  rcases htr : s.tracked with _ | t
  · rfl
  · by_cases h : t ∈ s.live
    · by_cases hj : j = true <;> simp [h, hj]
    · simp [h]

theorem stop_dest (j : Bool) (s : DragState) :
    (stop_auto_drag_loop j s).dest = s.dest := by
  unfold stop_auto_drag_loop
  rcases htr : s.tracked with _ | t
  · rfl
  · by_cases h : t ∈ s.live
    · by_cases hj : j = true <;> simp [h, hj]
    · simp [h]

theorem start_src (j : Bool) (s : DragState) :
    (start_auto_drag_loop j s).src = s.src := by
  unfold start_auto_drag_loop
  by_cases h0 : s.src = none ∨ s.dest = none
  · simp [h0]
  · rcases htr : s.tracked with _ | t
    · simp [h0]
    · by_cases h : t ∈ s.live <;> simp [h0, h, stop_src]

theorem start_dest (j : Bool) (s : DragState) :
    (start_auto_drag_loop j s).dest = s.dest := by
  unfold start_auto_drag_loop
  by_cases h0 : s.src = none ∨ s.dest = none
  · simp [h0]
  · rcases htr : s.tracked with _ | t
    · simp [h0]
    · by_cases h : t ∈ s.live <;> simp [h0, h, stop_dest]

theorem task_src (t : Nat) (s : DragState) :
    (task_observe_stop t s).src = s.src := by
  unfold task_observe_stop
  split <;> rfl

theorem task_dest (t : Nat) (s : DragState) :
    (task_observe_stop t s).dest = s.dest := by
  unfold task_observe_stop
  split <;> rfl

theorem capture_src_isSome (p : String) (pos : Point) (s : DragState) :
    s.src.isSome → ((capture_mouse_position p pos s).src).isSome := by
  unfold capture_mouse_position
  split_ifs <;> simp

theorem capture_dest_isSome (p : String) (pos : Point) (s : DragState) :
    s.dest.isSome → ((capture_mouse_position p pos s).dest).isSome := by
  unfold capture_mouse_position
  split_ifs <;> simp

theorem trackedInv_capture (p : String) (pos : Point) (s : DragState)
    (hs : TrackedInv s) : TrackedInv (capture_mouse_position p pos s) := by
  unfold capture_mouse_position
  split_ifs <;> exact hs

theorem trackedInv_stop_sync (s : DragState) (hs : TrackedInv s) :
    TrackedInv (stop_auto_drag_loop true s) := by
  unfold stop_auto_drag_loop
  rcases htr : s.tracked with _ | t
  · exact hs
  · by_cases h : t ∈ s.live
    · rcases hs with h0 | ⟨u, hu, htu⟩
      · rw [h0] at h; cases h
      · rw [htr] at htu
        obtain rfl : t = u := by injection htu
        simp [h, TrackedInv, hu]
    · simp [h, hs]

theorem trackedInv_start_sync (s : DragState) (hs : TrackedInv s) :
    TrackedInv (start_auto_drag_loop true s) := by
  unfold start_auto_drag_loop
  by_cases h0 : s.src = none ∨ s.dest = none
  · simp [h0, hs]
  · simp only [h0, if_false]
    rcases htr : s.tracked with _ | t
    · rcases hs with h1 | ⟨u, hu, htu⟩
      · simp [TrackedInv, h1]
      · rw [htr] at htu; cases htu
    · by_cases h : t ∈ s.live
      · rcases hs with h1 | ⟨u, hu, htu⟩
        · rw [h1] at h; cases h
        · rw [htr] at htu
          obtain rfl : t = u := by injection htu
          simp only [h, if_true]
          unfold stop_auto_drag_loop
          simp [htr, h, hu, TrackedInv]
      · rcases hs with h1 | ⟨u, hu, htu⟩
        · simp [h, h1, TrackedInv]
        · rw [htr] at htu
          obtain rfl : t = u := by injection htu
          rw [hu] at h
          simp at h

theorem trackedInv_task (t : Nat) (s : DragState) (hs : TrackedInv s) :
    TrackedInv (task_observe_stop t s) := by
  unfold task_observe_stop
  by_cases h : s.eventSet ∧ t ∈ s.live
  · rcases hs with h0 | ⟨u, hu, htu⟩
    · rw [h0] at h; simp at h
    · rw [hu] at h ⊢
      obtain rfl : t = u := by simpa using h.2
      simp [h.1, h.2, TrackedInv]
  · simp [h, hs]

theorem trackedInv_applyOp (op : DragOp) (s : DragState)
    (hop : op.syncStops) (hs : TrackedInv s) :
    TrackedInv (applyOp op s) := by
  cases op with
  | capture p pos => exact trackedInv_capture p pos s hs
  | start j =>
      obtain rfl : j = true := hop
      exact trackedInv_start_sync s hs
  | stop j =>
      obtain rfl : j = true := hop
      exact trackedInv_stop_sync s hs
  | taskCheck t => exact trackedInv_task t s hs

theorem trackedInv_applyOps (ops : List DragOp) (s : DragState)
    (hops : ∀ op ∈ ops, op.syncStops) (hs : TrackedInv s) :
    TrackedInv (applyOps ops s) := by
  induction ops generalizing s with
  | nil => exact hs
  | cons op rest ih =>
      exact ih (applyOp op s)
        (fun o ho => hops o (List.mem_cons_of_mem op ho))
        (trackedInv_applyOp op s (hops op (List.mem_cons_self op rest)) hs)

end AutoDrag

/-! ## Claims about the drag handler and the receive buffer -/

/-- C3 (counterexample): two `start()` calls in succession without an
intervening `stop()` CAN leave two drag-loop threads alive.  After
capturing both endpoints and starting a first loop, a second `start()`
whose internal `stop()` hits the 2-second `join` timeout (the warned
branch at `auto_drag_handler.py` lines 122–123) drops the reference to the
still-alive old thread, clears the shared stop event and launches a new
thread: both threads are then live. -/
theorem c3_counterexample :
    (AutoDrag.applyOps
      [.capture "SRC" ⟨0, 0⟩, .capture "DES" ⟨1, 1⟩,
       .start true, .start false]
      dragInit).live.length = 2 := by decide

/-- C3 (amended): provided every `stop()` performed (directly or inside
`start()`) observes the drag thread exit within its join timeout, the
module maintains the single-instance invariant: after any sequence of
capture / start / stop / task-cancellation-check operations from the
initial state, at most one drag-loop thread is alive. -/
theorem c3_single_instance_when_joins_succeed (ops : List AutoDrag.DragOp)
    (h : ∀ op ∈ ops, op.syncStops) :
    (AutoDrag.applyOps ops dragInit).live.length ≤ 1 := by
  have hinv := AutoDrag.trackedInv_applyOps ops dragInit h (Or.inl rfl)
  rcases hinv with h0 | ⟨t, ht, _⟩
  · rw [h0]; decide
  · rw [ht]; simp

/-- C3 (witness): the amended theorem at a concrete operation sequence
containing two successive `start()` calls whose joins succeed. -/
theorem c3_witness :
    (∀ op ∈ ([.capture "SRC" ⟨0, 0⟩, .capture "DES" ⟨1, 1⟩,
              .start true, .start true] : List AutoDrag.DragOp),
        op.syncStops) ∧
    (AutoDrag.applyOps
      [.capture "SRC" ⟨0, 0⟩, .capture "DES" ⟨1, 1⟩,
       .start true, .start true]
      dragInit).live.length ≤ 1 := by
  refine ⟨?_, c3_single_instance_when_joins_succeed _ ?_⟩ <;>
  · intro op hop
    simp only [List.mem_cons, List.not_mem_nil, or_false] at hop
    rcases hop with rfl | rfl | rfl | rfl <;> trivial

/-- C8 (confirmed): a capture request writes only its own endpoint slot
(`SRC` sets the source and leaves the destination unchanged, `DES` sets
the destination and leaves the source unchanged, any other purpose leaves
the whole state unchanged), and no operation of the module — capture,
start, stop, or the loop task's cancellation check — ever resets a set
endpoint back to unset. -/
theorem c8_capture_frame :
    (∀ (s : DragState) (pos : Point),
        (AutoDrag.capture_mouse_position "SRC" pos s).src = some pos ∧
        (AutoDrag.capture_mouse_position "SRC" pos s).dest = s.dest) ∧
    (∀ (s : DragState) (pos : Point),
        (AutoDrag.capture_mouse_position "DES" pos s).dest = some pos ∧
        (AutoDrag.capture_mouse_position "DES" pos s).src = s.src) ∧
    (∀ (s : DragState) (pos : Point) (purpose : String),
        purpose ≠ "SRC" → purpose ≠ "DES" →
        AutoDrag.capture_mouse_position purpose pos s = s) ∧
    (∀ (op : AutoDrag.DragOp) (s : DragState),
        (s.src.isSome → ((AutoDrag.applyOp op s).src).isSome) ∧
        (s.dest.isSome → ((AutoDrag.applyOp op s).dest).isSome)) := by
  refine ⟨fun s pos => ⟨rfl, rfl⟩, fun s pos => ⟨rfl, rfl⟩,
    fun s pos purpose h1 h2 => ?_, fun op s => ?_⟩
  · unfold AutoDrag.capture_mouse_position
    simp [h1, h2]
  · cases op with
    | capture p pos =>
        exact ⟨AutoDrag.capture_src_isSome p pos s,
               AutoDrag.capture_dest_isSome p pos s⟩
    | start j =>
        constructor <;> intro h <;>
          [rw [AutoDrag.applyOp, AutoDrag.start_src];
           rw [AutoDrag.applyOp, AutoDrag.start_dest]] <;> exact h
    | stop j =>
        constructor <;> intro h <;>
          [rw [AutoDrag.applyOp, AutoDrag.stop_src];
           rw [AutoDrag.applyOp, AutoDrag.stop_dest]] <;> exact h
    | taskCheck t =>
        constructor <;> intro h <;>
          [rw [AutoDrag.applyOp, AutoDrag.task_src];
           rw [AutoDrag.applyOp, AutoDrag.task_dest]] <;> exact h

/-- C8 (witness): the frame theorem applied at a concrete state, a capture
with an unknown purpose, and a concrete start operation. -/
theorem c8_witness :
    ("MID" ≠ "SRC") ∧ ("MID" ≠ "DES") ∧
    AutoDrag.capture_mouse_position "MID" ⟨7, 8⟩ dragInit = dragInit ∧
    ((AutoDrag.applyOp (.start true)
        ⟨some ⟨1, 2⟩, some ⟨3, 4⟩, false, none, [], 0⟩).src).isSome := by
  refine ⟨by decide, by decide,
    c8_capture_frame.2.2.1 dragInit ⟨7, 8⟩ "MID" (by decide) (by decide),
    (c8_capture_frame.2.2.2 (.start true)
        ⟨some ⟨1, 2⟩, some ⟨3, 4⟩, false, none, [], 0⟩).1 (by decide)⟩

/-- C9 (counterexample): the command server's receive call does not use a
buffer of at least 2048 bytes: `server.py` defines its own
`BUFFER_SIZE = 1024`, so a 2048-byte datagram is truncated by
`recvfrom`. -/
theorem c9_counterexample :
    Server.BUFFER_SIZE = 1024 ∧
    Server.recvfrom (List.replicate 2048 0) ≠ List.replicate 2048 0 := by
  refine ⟨rfl, fun h => ?_⟩
  have hl := congrArg List.length h
  rw [Server.recvfrom] at hl
  simp only [List.length_take, List.length_replicate] at hl
  norm_num [Server.BUFFER_SIZE] at hl

/-- C9 (amended): the receive loop of `server.py main` reads each datagram
with a 1024-byte buffer (the module-level `BUFFER_SIZE` of `server.py`,
not the 2048 of `config.py`), so any datagram of at most 1024 bytes is
delivered to the decoder untruncated. -/
theorem c9_buffer_1024 :
    Server.BUFFER_SIZE = 1024 ∧ Config.BUFFER_SIZE = 2048 ∧
    ∀ d : List Nat, d.length ≤ 1024 → Server.recvfrom d = d := by
  refine ⟨rfl, rfl, fun d h => ?_⟩
  unfold Server.recvfrom Server.BUFFER_SIZE
  exact List.take_of_length_le h

/-- C9 (witness): a 100-byte datagram is delivered untruncated. -/
theorem c9_witness :
    (List.replicate 100 (0 : Nat)).length ≤ 1024 ∧
    Server.recvfrom (List.replicate 100 (0 : Nat)) =
      List.replicate 100 (0 : Nat) :=
  ⟨by simp, c9_buffer_1024.2.2 _ (by simp)⟩

/-! ## Claims about the dispatch loop -/

/-- C4 (confirmed): a datagram whose bytes are not valid UTF-8 or whose
text is not valid JSON only produces the corresponding error log — no
reply is sent and no OS input call is made — and the receive loop goes on
to process every subsequent datagram exactly as it would have otherwise;
in particular a well-formed packet following a malformed one is decoded
and dispatched on its type. -/
theorem c4_malformed_datagram_recovery
    (loads : String → Option JValue) (os : Os) (now : Int) :
    (Server.handleRaw loads os now .badUtf8 = [.log .errUnicode] ∧
     sends (Server.handleRaw loads os now .badUtf8) = [] ∧
     osCalls (Server.handleRaw loads os now .badUtf8) = []) ∧
    (Server.handleRaw loads os now .badJson = [.log .errInvalidJson] ∧
     sends (Server.handleRaw loads os now .badJson) = [] ∧
     osCalls (Server.handleRaw loads os now .badJson) = []) ∧
    (∀ (d : Server.RawDatagram) (rest : List Server.RawDatagram),
        Server.serverLoop loads os now (d :: rest) =
          Server.handleRaw loads os now d ++
            Server.serverLoop loads os now rest) ∧
    (∀ (p : JValue) (rest : List Server.RawDatagram),
        Server.serverLoop loads os now (.badUtf8 :: .packet p :: rest) =
          .log .errUnicode ::
            (Server.handleDecoded loads os now p ++
              Server.serverLoop loads os now rest)) :=
  ⟨⟨rfl, rfl, rfl⟩, ⟨rfl, rfl, rfl⟩, fun _ _ => rfl, fun _ _ => rfl⟩

/-- C5 (confirmed): a HEALTH_CHECK_PING packet with a (truthy) packetId
gets exactly one reply: a HEALTH_CHECK_PONG echoing the same packetId and
stamped with the server-local send time `now`; a ping without a packetId
produces no reply at all. -/
theorem c5_ping_pong (loads : String → Option JValue) (os : Os) (now : Int)
    (fs : List (String × JValue))
    (hty : jget fs "type" = some (.str "HEALTH_CHECK_PING")) :
    (truthyOpt (jget fs "packetId") = true →
      Server.handleDecoded loads os now (.obj fs) =
        [.log .recvPing,
         .send (Server.mkPong ((jget fs "packetId").getD .null) now),
         .log .sentPong]) ∧
    (truthyOpt (jget fs "packetId") = false →
      Server.handleDecoded loads os now (.obj fs) =
        [.log .recvPing, .log .warnPingNoId]) := by
  constructor <;> intro h <;> simp [Server.handleDecoded, hty, jIsStr, h]

/-- C5 (witness): the ping/pong theorem at a concrete ping packet with
packetId `"7"`, and at one without a packetId. -/
theorem c5_witness :
    (jget [("type", JValue.str "HEALTH_CHECK_PING"),
           ("packetId", JValue.str "7")] "type" =
        some (.str "HEALTH_CHECK_PING") ∧
     truthyOpt (jget [("type", JValue.str "HEALTH_CHECK_PING"),
           ("packetId", JValue.str "7")] "packetId") = true ∧
     Server.handleDecoded (fun _ => none) osOk 3
        (.obj [("type", .str "HEALTH_CHECK_PING"),
               ("packetId", .str "7")]) =
        [.log .recvPing, .send (Server.mkPong (.str "7") 3),
         .log .sentPong]) ∧
    (jget [("type", JValue.str "HEALTH_CHECK_PING")] "type" =
        some (.str "HEALTH_CHECK_PING") ∧
     Server.handleDecoded (fun _ => none) osOk 3
        (.obj [("type", .str "HEALTH_CHECK_PING")]) =
        [.log .recvPing, .log .warnPingNoId]) := by
  refine ⟨⟨rfl, rfl, ?_⟩, ⟨rfl, ?_⟩⟩
  · exact (c5_ping_pong (fun _ => none) osOk 3
      [("type", .str "HEALTH_CHECK_PING"), ("packetId", .str "7")] rfl).1 rfl
  · exact (c5_ping_pong (fun _ => none) osOk 3
      [("type", .str "HEALTH_CHECK_PING")] rfl).2 rfl

theorem jIsStr_ne (v : Option JValue) (a b : String) (h : jIsStr v a = true)
    (hab : b ≠ a) : jIsStr v b = false := by
  rcases v with _ | w
  · cases h
  · rcases w with _ | c | n | t | xs | fs <;> try cases h
    simp only [jIsStr, beq_iff_eq] at h
    simp only [jIsStr]
    rw [h]
    exact beq_eq_false_iff_ne.mpr (Ne.symm hab)

/-- A concrete stand-in for `json.loads`, decoding the payload string
`"A"` to a key_event tap of the key `a`. -/
def loadsCx : String → Option JValue := fun s =>
  if s = "A" then some (.obj [("type", .str "key_event"), ("key", .str "a")])
  else none

/-- The concrete MACRO_COMMAND packet used by the C1 counterexample:
packetId `"42"` and a payload decoding to a key_event tap. -/
def pktCx : JValue :=
  .obj [("type", .str "MACRO_COMMAND"), ("packetId", .str "42"),
        ("payload", .str "A")]

/-- C1 (counterexample): for a MACRO_COMMAND packet carrying both a
packetId and a payload, the ACK send does NOT precede the executor start.
In the trace of `pktCx` the executor-invocation-start event sits at index
1 and the (unique) ACK send at index 4: `server.py` runs the execution
function inside the `try` block (line 325) and only sends the ACK in the
`finally` block (line 349), after the action has executed. -/
theorem c1_counterexample :
    (Server.handleDecoded loadsCx osOk 0 pktCx).findIdx isExecStartE = 1 ∧
    (Server.handleDecoded loadsCx osOk 0 pktCx).findIdx isSendE = 4 ∧
    (Server.handleDecoded loadsCx osOk 0 pktCx).length = 6 ∧
    ¬ ((Server.handleDecoded loadsCx osOk 0 pktCx).findIdx isSendE <
       (Server.handleDecoded loadsCx osOk 0 pktCx).findIdx isExecStartE) := by
  refine ⟨rfl, rfl, rfl, by decide⟩

/-- C1 (amended): for every MACRO_COMMAND packet carrying a truthy
packetId and a payload string that decodes to an action of a known
subtype, exactly one MacroAck is sent, and it is sent only after the
Action Executor invocation for the packet's action has begun (and
finished): the trace is the receive log, the executor-start marker, the
executor's events, and then the ACK send. -/
theorem c1_ack_follows_executor (loads : String → Option JValue) (os : Os)
    (now : Int) (fs afs : List (String × JValue)) (s : String)
    (hty : jget fs "type" = some (.str "MACRO_COMMAND"))
    (hpid : truthyOpt (jget fs "packetId") = true)
    (hpay : jget fs "payload" = some (.str s))
    (hs : s ≠ "")
    (hload : loads s = some (.obj afs))
    (hsub : jIsStr (jget afs "type") "key_event" = true ∨
            jIsStr (jget afs "type") "mouse_event" = true ∨
            jIsStr (jget afs "type") "mouse_scroll" = true) :
    ∃ (name : String) (mid : List Event),
      Server.handleDecoded loads os now (.obj fs) =
        .log .recvCmd :: .execStart name :: mid ++
          [.send (Server.mkAck ((jget fs "packetId").getD .null) now),
           .log .sentAck] ∧
      sends mid = [] := by
  have hpayT : truthyOpt (jget fs "payload") = true := by
    rw [hpay]; simpa [truthyOpt, truthy] using hs
  have hloop :
      Server.handleDecoded loads os now (.obj fs) =
        Server.cmdBranch loads os now (jget fs "packetId")
          (jget fs "payload") := by
    simp [Server.handleDecoded, hty, jIsStr]
  rw [hloop]
  unfold Server.cmdBranch
  rw [hpayT, hpid]
  simp only [if_true]
  have hpart :
      ∃ (name : String) (r : List Event × Bool),
        Server.cmdPayloadPart loads os (jget fs "payload") =
          Server.execWrap name r ∧ sends r.1 = [] := by
    rw [hpay]
    rcases hsub with hk | hm | hsc
    · refine ⟨"key_event", Server.execute_key_event os (.obj afs), ?_, ?_⟩
      · simp [Server.cmdPayloadPart, hload, hk]
      · exact sends_exec_key_server os _
    · refine ⟨"mouse_event", Server.execute_mouse_event os (.obj afs), ?_, ?_⟩
      · have hk := jIsStr_ne _ _ "key_event" hm (by decide)
        simp [Server.cmdPayloadPart, hload, hk, hm]
      · exact sends_exec_mouse_server os _
    · refine ⟨"mouse_scroll", Server.execute_mouse_scroll os (.obj afs), ?_, ?_⟩
      · have hk := jIsStr_ne _ _ "key_event" hsc (by decide)
        have hm := jIsStr_ne _ _ "mouse_event" hsc (by decide)
        simp [Server.cmdPayloadPart, hload, hk, hm, hsc]
      · exact sends_exec_scroll_server os _
  obtain ⟨name, r, hwrap, hr⟩ := hpart
  refine ⟨name, r.1 ++ (if r.2 then [Event.log .errProcPayload] else []),
    ?_, ?_⟩
  · rw [hwrap]
    unfold Server.execWrap
    simp
  · rw [sends_append, hr]
    split <;> rfl

/-- C1 (witness): the amended theorem at the concrete packet `pktCx`. -/
theorem c1_witness :
    (jget [("type", JValue.str "MACRO_COMMAND"),
           ("packetId", JValue.str "42"), ("payload", JValue.str "A")]
        "type" = some (.str "MACRO_COMMAND")) ∧
    (∃ (name : String) (mid : List Event),
      Server.handleDecoded loadsCx osOk 0
          (.obj [("type", .str "MACRO_COMMAND"),
                 ("packetId", .str "42"), ("payload", .str "A")]) =
        .log .recvCmd :: .execStart name :: mid ++
          [.send (Server.mkAck (.str "42") 0), .log .sentAck] ∧
      sends mid = []) :=
  ⟨rfl,
    c1_ack_follows_executor loadsCx osOk 0
      [("type", .str "MACRO_COMMAND"), ("packetId", .str "42"),
       ("payload", .str "A")]
      [("type", .str "key_event"), ("key", .str "a")] "A"
      rfl rfl rfl (by decide) rfl (Or.inl rfl)⟩

/-- C2 (counterexample): a MACRO_COMMAND with a payload but WITHOUT a
packetId performs the action work anyway: no ACK is sent (no send event),
but the key press of the decoded action is executed.  `server.py` runs the
payload (lines 319–332) unconditionally and only guards the ACK itself on
`packet_id`. -/
theorem c2_counterexample :
    sends (Server.handleDecoded loadsCx osOk 0
      (.obj [("type", .str "MACRO_COMMAND"), ("payload", .str "A")])) = [] ∧
    osCalls (Server.handleDecoded loadsCx osOk 0
      (.obj [("type", .str "MACRO_COMMAND"), ("payload", .str "A")])) =
      [.press (.str "a")] :=
  ⟨rfl, rfl⟩

/-- C2 (amended): for every MACRO_COMMAND packet, exactly one MacroAck
echoing the packetId is sent iff a truthy packetId is present — regardless
of whether the payload is present, decodable, or of a known subtype; when
the packetId is absent no ACK is sent (but payload work, if any, is still
performed, see the counterexample). -/
theorem c2_ack_iff_packetId (loads : String → Option JValue) (os : Os)
    (now : Int) (fs : List (String × JValue))
    (hty : jget fs "type" = some (.str "MACRO_COMMAND")) :
    sends (Server.handleDecoded loads os now (.obj fs)) =
      (if truthyOpt (jget fs "packetId") then
        [Server.mkAck ((jget fs "packetId").getD .null) now]
       else []) := by
  have hloop :
      Server.handleDecoded loads os now (.obj fs) =
        Server.cmdBranch loads os now (jget fs "packetId")
          (jget fs "payload") := by
    simp [Server.handleDecoded, hty, jIsStr]
  rw [hloop]
  unfold Server.cmdBranch
  by_cases hpayT : truthyOpt (jget fs "payload") = true
  · rw [hpayT]
    simp only [if_true, sends_cons_log, sends_append,
      sends_cmdPayloadPart, List.nil_append]
    by_cases hpid : truthyOpt (jget fs "packetId") = true
    · rw [hpid]; rfl
    · rw [Bool.not_eq_true] at hpid; rw [hpid]; rfl
  · rw [Bool.not_eq_true] at hpayT
    rw [hpayT]
    simp only [Bool.false_eq_true, if_false, sends_cons_log]
    by_cases hpid : truthyOpt (jget fs "packetId") = true
    · rw [hpid]; rfl
    · rw [Bool.not_eq_true] at hpid; rw [hpid]; rfl

/-- C2 (witness): the amended theorem at a packet with packetId `"42"`
(one ACK) and at one without a packetId (no ACK). -/
theorem c2_witness :
    (jget [("type", JValue.str "MACRO_COMMAND"),
           ("packetId", JValue.str "42")] "type" =
        some (.str "MACRO_COMMAND") ∧
     sends (Server.handleDecoded loadsCx osOk 9
        (.obj [("type", .str "MACRO_COMMAND"), ("packetId", .str "42")])) =
       [Server.mkAck (.str "42") 9]) ∧
    (jget [("type", JValue.str "MACRO_COMMAND"),
           ("payload", JValue.str "A")] "type" =
        some (.str "MACRO_COMMAND") ∧
     sends (Server.handleDecoded loadsCx osOk 9
        (.obj [("type", .str "MACRO_COMMAND"), ("payload", .str "A")])) =
       []) := by
  constructor
  · exact ⟨rfl, c2_ack_iff_packetId loadsCx osOk 9
      [("type", .str "MACRO_COMMAND"), ("packetId", .str "42")] rfl⟩
  · exact ⟨rfl, c2_ack_iff_packetId loadsCx osOk 9
      [("type", .str "MACRO_COMMAND"), ("payload", .str "A")] rfl⟩

/-! ## Claims about the execution functions -/

/-- The `durationMs` binding of a constructed `pressType` object: absent
(`none`) or present with the given value. -/
def durField : Option JValue → List (String × JValue)
  | none => []
  | some v => [("durationMs", v)]

/-- The `durationMs` values on which the hold branch degrades to tap:
missing, JSON `null`, a non-positive number, or `false` (numeric zero in
Python).  A present non-numeric value is NOT in this set: it raises a
`TypeError` at `duration_ms / 1000.0` instead. -/
def degradesToTap : Option JValue → Prop
  | none => True
  | some .null => True
  | some (.num n) => n ≤ 0
  | some (.bool b) => b = false
  | some _ => False

/-- C6 (counterexample): a key_event hold whose `durationMs` is the
non-numeric string `"soon"` does NOT produce the same input events as the
same action with pressType tap: `duration_ms / 1000.0` raises `TypeError`,
which the `except` arm catches having performed no key action, whereas the
tap presses the key. -/
theorem c6_counterexample :
    osCalls (InputSim.execute_key_event osOk
      (.obj [("key", .str "a"),
             ("pressType", .obj [("type", .str "hold"),
                                 ("durationMs", .str "soon")])])).1 ≠
    osCalls (InputSim.execute_key_event osOk
      (.obj [("key", .str "a"),
             ("pressType", .obj [("type", .str "tap")])])).1 := by
  intro h
  have h1 : osCalls (InputSim.execute_key_event osOk
      (.obj [("key", .str "a"),
             ("pressType", .obj [("type", .str "hold"),
                                 ("durationMs", .str "soon")])])).1 = [] := rfl
  have h2 : osCalls (InputSim.execute_key_event osOk
      (.obj [("key", .str "a"),
             ("pressType", .obj [("type", .str "tap")])])).1 =
      [.press (.str "a")] := rfl
  rw [h1, h2] at h
  simp at h

/-- On a degradable duration, the duration option seen by the hold branch
is either absent or a non-positive number. -/
theorem durOpt_degrade (d : Option JValue) (hd : degradesToTap d) :
    pyNone (jget (durField d) "durationMs") = none ∨
    ∃ w, pyNone (jget (durField d) "durationMs") = some w ∧
         ∃ n, asNum w = some n ∧ n ≤ 0 := by
  rcases d with _ | v
  · exact Or.inl rfl
  · rcases v with _ | b | n | t | xs | gs
    · exact Or.inl rfl
    · obtain rfl : b = false := hd
      exact Or.inr ⟨.bool false, rfl, 0, rfl, le_refl 0⟩
    · exact Or.inr ⟨.num n, rfl, n, rfl, hd⟩
    · exact hd.elim
    · exact hd.elim
    · exact hd.elim

theorem keyPrimary_hold_degrade (os : Os) (key : JValue) (d : Option JValue)
    (hd : degradesToTap d) :
    osCalls (keyPrimary os key (.str "hold")
      (pyNone (jget (durField d) "durationMs"))) = [OsCall.press key] := by
  rcases durOpt_degrade d hd with h | ⟨w, hw, n, hn, hn0⟩
  · rw [h]; simp [keyPrimary, jIsStr]
  · rw [hw]; simp [keyPrimary, jIsStr, hn, hn0]

theorem keyPrimary_tap (os : Os) (key : JValue) (dur : Option JValue) :
    osCalls (keyPrimary os key (.str "tap") dur) = [OsCall.press key] := by
  simp [keyPrimary, jIsStr]

theorem mousePrimary_hold_degrade (os : Os) (b : String) (d : Option JValue)
    (hd : degradesToTap d) :
    osCalls (mousePrimary os b (.str "hold")
      (pyNone (jget (durField d) "durationMs"))) = [OsCall.click b] := by
  rcases durOpt_degrade d hd with h | ⟨w, hw, n, hn, hn0⟩
  · rw [h]; simp [mousePrimary, jIsStr]
  · rw [hw]; simp [mousePrimary, jIsStr, hn, hn0]

theorem mousePrimary_tap (os : Os) (b : String) (dur : Option JValue) :
    osCalls (mousePrimary os b (.str "tap") dur) = [OsCall.click b] := by
  simp [mousePrimary, jIsStr]

/-- C6 (amended): a key_event or mouse_event hold whose `durationMs` is
missing, `null`, or numeric and ≤ 0 produces exactly the same OS input
calls as the same action with pressType tap, and no exception escapes the
execution function; a present non-numeric `durationMs` instead raises
internally (caught and logged, modifiers still released) and skips the
primary action, unlike tap — see the counterexample. -/
theorem c6_degrade_to_tap (os : Os) (key : JValue) (mods : List JValue)
    (d : Option JValue) (hk : truthy key = true) (hd : degradesToTap d) :
    (osCalls (InputSim.execute_key_event os
        (.obj [("key", key), ("modifiers", .arr mods),
               ("pressType",
                .obj (("type", .str "hold") :: durField d))])).1 =
      osCalls (InputSim.execute_key_event os
        (.obj [("key", key), ("modifiers", .arr mods),
               ("pressType", .obj [("type", .str "tap")])])).1 ∧
     (InputSim.execute_key_event os
        (.obj [("key", key), ("modifiers", .arr mods),
               ("pressType",
                .obj (("type", .str "hold") :: durField d))])).2 = false) ∧
    (∀ (bs b : String), buttonMap (some (.str bs)) = .ok (some b) →
      osCalls (InputSim.execute_mouse_event os
          (.obj [("button", .str bs), ("modifiers", .arr mods),
                 ("pressType",
                  .obj (("type", .str "hold") :: durField d))])).1 =
        osCalls (InputSim.execute_mouse_event os
          (.obj [("button", .str bs), ("modifiers", .arr mods),
                 ("pressType", .obj [("type", .str "tap")])])).1 ∧
      (InputSim.execute_mouse_event os
          (.obj [("button", .str bs), ("modifiers", .arr mods),
                 ("pressType",
                  .obj (("type", .str "hold") :: durField d))])).2 =
        false) := by
  constructor
  · constructor
    · simp [InputSim.execute_key_event, jget, truthyOpt, hk, pyIter,
        keyPrimary_hold_degrade os key d hd, keyPrimary_tap]
    · simp [InputSim.execute_key_event, jget, truthyOpt, hk, pyIter]
  · intro bs b hb
    constructor
    · simp [InputSim.execute_mouse_event, jget, hb, pyIter,
        mousePrimary_hold_degrade os b d hd, mousePrimary_tap]
    · simp [InputSim.execute_mouse_event, jget, hb, pyIter]

/-- C6 (witness): the amended theorem at key `"a"`, button `LEFT`, no
modifiers and `durationMs = 0`. -/
theorem c6_witness :
    truthy (JValue.str "a") = true ∧ degradesToTap (some (.num 0)) ∧
    buttonMap (some (.str "LEFT")) = .ok (some "left") ∧
    osCalls (InputSim.execute_key_event osOk
        (.obj [("key", .str "a"), ("modifiers", .arr []),
               ("pressType",
                .obj (("type", .str "hold") ::
                  durField (some (.num 0))))])).1 =
      osCalls (InputSim.execute_key_event osOk
        (.obj [("key", .str "a"), ("modifiers", .arr []),
               ("pressType", .obj [("type", .str "tap")])])).1 ∧
    osCalls (InputSim.execute_mouse_event osOk
        (.obj [("button", .str "LEFT"), ("modifiers", .arr []),
               ("pressType",
                .obj (("type", .str "hold") ::
                  durField (some (.num 0))))])).1 =
      osCalls (InputSim.execute_mouse_event osOk
        (.obj [("button", .str "LEFT"), ("modifiers", .arr []),
               ("pressType", .obj [("type", .str "tap")])])).1 := by
  have h := c6_degrade_to_tap osOk (.str "a") [] (some (.num 0)) rfl
    (by simp [degradesToTap])
  exact ⟨rfl, by simp [degradesToTap], rfl, h.1.1, (h.2 "LEFT" "left" rfl).1⟩

/-- C7 (confirmed): for each of the three action variants with a valid
primary field and any list of modifiers — and under EVERY oracle of OS
call failures, i.e. on every exit path of the `try` including an exception
during the primary action — the OS input calls are exactly: key-down of
each modifier in list order, then the primary action's calls, then key-up
of each modifier in reverse list order; and no exception escapes the
execution function.  For the scroll variant the primary part is exactly
the one scroll call. -/
theorem c7_modifier_bracketing (os : Os) :
    (∀ (fs : List (String × JValue)) (k : JValue) (mods : List JValue)
        (pfs : List (String × JValue)),
        jget fs "key" = some k → truthy k = true →
        (jget fs "modifiers").getD (.arr []) = .arr mods →
        (jget fs "pressType").getD (.obj []) = .obj pfs →
        (InputSim.execute_key_event os (.obj fs)).2 = false ∧
        ∃ P, osCalls (InputSim.execute_key_event os (.obj fs)).1 =
          mods.map OsCall.keyDown ++ P ++ mods.reverse.map OsCall.keyUp) ∧
    (∀ (fs : List (String × JValue)) (bs b : String) (mods : List JValue)
        (pfs : List (String × JValue)),
        jget fs "button" = some (.str bs) →
        buttonMap (some (.str bs)) = .ok (some b) →
        (jget fs "modifiers").getD (.arr []) = .arr mods →
        (jget fs "pressType").getD (.obj []) = .obj pfs →
        (InputSim.execute_mouse_event os (.obj fs)).2 = false ∧
        ∃ P, osCalls (InputSim.execute_mouse_event os (.obj fs)).1 =
          mods.map OsCall.keyDown ++ P ++ mods.reverse.map OsCall.keyUp) ∧
    (∀ (fs : List (String × JValue)) (mods : List JValue) (amt : JValue),
        pyScrollAmount (jget fs "direction")
          ((jget fs "clicks").getD (.num 1)) = .ok amt →
        pyEqZero amt = false →
        (jget fs "modifiers").getD (.arr []) = .arr mods →
        (InputSim.execute_mouse_scroll os (.obj fs)).2 = false ∧
        osCalls (InputSim.execute_mouse_scroll os (.obj fs)).1 =
          mods.map OsCall.keyDown ++ [OsCall.scroll amt] ++
            mods.reverse.map OsCall.keyUp) := by
  refine ⟨fun fs k mods pfs hkey hk hmods hpt => ⟨?_, ?_⟩,
    fun fs bs b mods pfs hbs hb hmods hpt => ⟨?_, ?_⟩,
    fun fs mods amt hamt hz hmods => ⟨?_, ?_⟩⟩
  · simp [InputSim.execute_key_event, hpt, hkey, truthyOpt, hk, hmods,
      pyIter]
  · refine ⟨osCalls (keyPrimary os k ((jget pfs "type").getD (.str "tap"))
      (pyNone (jget pfs "durationMs"))), ?_⟩
    simp [InputSim.execute_key_event, hpt, hkey, truthyOpt, hk, hmods,
      pyIter]
  · simp [InputSim.execute_mouse_event, hpt, hbs, hb, hmods, pyIter]
  · refine ⟨osCalls (mousePrimary os b ((jget pfs "type").getD (.str "tap"))
      (pyNone (jget pfs "durationMs"))), ?_⟩
    simp [InputSim.execute_mouse_event, hpt, hbs, hb, hmods, pyIter]
  · simp [InputSim.execute_mouse_scroll, hamt, hz, hmods, pyIter]
  · simp [InputSim.execute_mouse_scroll, hamt, hz, hmods, pyIter]

/-- C7 (witness): the bracketing theorem at a concrete key_event tap with
one modifier, a mouse_event tap with one modifier, and a scroll with one
modifier. -/
theorem c7_witness :
    (jget [("key", JValue.str "a"),
           ("modifiers", JValue.arr [.str "shift"]),
           ("pressType", JValue.obj [("type", .str "tap")])] "key" =
        some (.str "a") ∧
     ∃ P, osCalls (InputSim.execute_key_event osOk
        (.obj [("key", .str "a"), ("modifiers", .arr [.str "shift"]),
               ("pressType", .obj [("type", .str "tap")])])).1 =
       [JValue.str "shift"].map OsCall.keyDown ++ P ++
         ([JValue.str "shift"].reverse).map OsCall.keyUp) ∧
    (∃ P, osCalls (InputSim.execute_mouse_event osOk
        (.obj [("button", .str "LEFT"), ("modifiers", .arr [.str "ctrl"]),
               ("pressType", .obj [("type", .str "tap")])])).1 =
       [JValue.str "ctrl"].map OsCall.keyDown ++ P ++
         ([JValue.str "ctrl"].reverse).map OsCall.keyUp) ∧
    osCalls (InputSim.execute_mouse_scroll osOk
        (.obj [("direction", .str "UP"), ("clicks", .num 2),
               ("modifiers", .arr [.str "alt"])])).1 =
      [JValue.str "alt"].map OsCall.keyDown ++ [OsCall.scroll (.num 2)] ++
        ([JValue.str "alt"].reverse).map OsCall.keyUp := by
  refine ⟨⟨rfl, ?_⟩, ?_, ?_⟩
  · exact (((c7_modifier_bracketing osOk).1
      [("key", .str "a"), ("modifiers", .arr [.str "shift"]),
       ("pressType", .obj [("type", .str "tap")])]
      (.str "a") [.str "shift"] [("type", .str "tap")]
      rfl rfl rfl rfl).2)
  · exact (((c7_modifier_bracketing osOk).2.1
      [("button", .str "LEFT"), ("modifiers", .arr [.str "ctrl"]),
       ("pressType", .obj [("type", .str "tap")])]
      "LEFT" "left" [.str "ctrl"] [("type", .str "tap")]
      rfl rfl rfl rfl).2)
  · exact (((c7_modifier_bracketing osOk).2.2
      [("direction", .str "UP"), ("clicks", .num 2),
       ("modifiers", .arr [.str "alt"])]
      [.str "alt"] (.num 2) rfl rfl rfl).2)

/-- C10 (confirmed): a mouse_scroll with a valid direction (`UP` or
`DOWN`) but `clicks = 0` computes a scroll amount of 0 and is rejected by
the same branch as an invalid direction — the trace is exactly the
invalid-direction error log, with no scroll call and no modifier press or
release, identical to the trace of a garbage direction — in both
`input_simulator.py` and `server.py`; and when the `clicks` field is
absent it defaults to 1 (the scroll call carries amount 1). -/
theorem c10_scroll_zero_clicks (os : Os) (mods : List JValue) (dir : String)
    (hdir : dir = "UP" ∨ dir = "DOWN") :
    InputSim.execute_mouse_scroll os
        (.obj [("direction", .str dir), ("clicks", .num 0),
               ("modifiers", .arr mods)]) =
      ([.log .errBadDirection], false) ∧
    Server.execute_mouse_scroll os
        (.obj [("direction", .str dir), ("clicks", .num 0),
               ("modifiers", .arr mods)]) =
      ([.log .errBadDirection], false) ∧
    InputSim.execute_mouse_scroll os
        (.obj [("direction", .str dir), ("clicks", .num 0),
               ("modifiers", .arr mods)]) =
      InputSim.execute_mouse_scroll os
        (.obj [("direction", .str "diag"), ("clicks", .num 3),
               ("modifiers", .arr mods)]) ∧
    InputSim.execute_mouse_scroll os (.obj [("direction", .str "UP")]) =
      ([.log .latency, .log .simScroll, .os (.scroll (.num 1))] ++
        errIf os (.scroll (.num 1)) .errScrollAction, false) := by
  rcases hdir with rfl | rfl <;>
    exact ⟨by simp [InputSim.execute_mouse_scroll, jget, pyScrollAmount,
             jIsStr, pyNeg, pyEqZero],
           by simp [Server.execute_mouse_scroll, jget, pyScrollAmount,
             jIsStr, pyNeg, pyEqZero],
           by simp [InputSim.execute_mouse_scroll, jget, pyScrollAmount,
             jIsStr, pyNeg, pyEqZero],
           by simp [InputSim.execute_mouse_scroll, jget, pyScrollAmount,
             jIsStr, pyNeg, pyEqZero, pyIter, modDownsSilent,
             modUpsRevSilent]⟩

/-- C10 (witness): the zero-clicks theorem at direction `UP` with one
modifier listed. -/
theorem c10_witness :
    ("UP" = "UP" ∨ "UP" = "DOWN") ∧
    InputSim.execute_mouse_scroll osOk
        (.obj [("direction", .str "UP"), ("clicks", .num 0),
               ("modifiers", .arr [.str "shift"])]) =
      ([.log .errBadDirection], false) :=
  ⟨Or.inl rfl,
    (c10_scroll_zero_clicks osOk [.str "shift"] "UP" (Or.inl rfl)).1⟩

end StarButtonBox
